import Mathlib

/-!
Shallow embedding of `src/ai-service/src/services/ai_service.py` (class
`AIService`): the heuristic conversation-analysis generator
`_generate_mock_analysis`, the `initialize` mode decision and the `cleanup`
shutdown hook, together with theorems settling the specification's claims
about them.

Numeric values that Python computes with floats are modelled exactly in `ℚ`;
Python's `round(x, 1)` is modelled as rounding to the nearest tenth.
-/

namespace AIServiceModel

/-- Python's `s.lower()` restricted to the ASCII range, as the keyword sets
use: every character is mapped through `Char.toLower`. -/
def lowerStr (s : String) : String :=
  String.mk (s.data.map Char.toLower)

/-- Python's substring test `word in msg` on strings. -/
def containsWord (msg word : String) : Bool :=
  decide (word.data <:+: msg.data)

/-- The fixed empathy-keyword set of `_generate_mock_analysis` (line 73). -/
def empathyWords : List String := ["understand", "feel", "sorry", "hear"]

/-- The fixed defensiveness-keyword set of `_generate_mock_analysis` (line 77). -/
def defensiveWords : List String := ["wrong", "not", "but", "however"]

/-- One exchange of a conversation history: Python passes dicts, whose
`user_message` key may be absent (`exchange.get("user_message", "")`). -/
structure Exchange where
  user_message : Option String := none
  ai_response : Option String := none
  timestamp : Option String := none
deriving DecidableEq

/-- Python's `exchange.get("user_message", "")`. -/
def getUserMessage (e : Exchange) : String :=
  e.user_message.getD ""

/-- Predicate counted into `empathetic_responses`:
`any(word in exchange.get("user_message", "").lower() for word in [...])`. -/
def isEmpathetic (e : Exchange) : Bool :=
  empathyWords.any (fun word => containsWord (lowerStr (getUserMessage e)) word)

/-- Predicate counted into `defensive_responses`. -/
def isDefensive (e : Exchange) : Bool :=
  defensiveWords.any (fun word => containsWord (lowerStr (getUserMessage e)) word)

/-- `conversation_history: List[Dict]`. -/
abbrev ConversationHistory := List Exchange

/-- `neural_data: Optional[Dict]`, the optional telemetry mapping; a Python
dict of named numeric signals is modelled as an association list. -/
abbrev NeuralTelemetry := List (String × ℚ)

/-- Python's `neural_data.get(key, default)`. -/
def telemetryGet (t : NeuralTelemetry) (key : String) (dflt : ℚ) : ℚ :=
  (t.lookup key).getD dflt

/-- `total_exchanges = len(conversation_history)` (line 70). -/
def total_exchanges (h : ConversationHistory) : ℕ :=
  h.length

/-- `empathetic_responses` (lines 71-73). -/
def empathetic_responses (h : ConversationHistory) : ℕ :=
  h.countP (fun e => isEmpathetic e)

/-- `defensive_responses` (lines 75-77). -/
def defensive_responses (h : ConversationHistory) : ℕ :=
  h.countP (fun e => isDefensive e)

/-- `empathy_score = (empathetic_responses / max(total_exchanges, 1)) * 100`
(line 80). -/
def empathy_score (h : ConversationHistory) : ℚ :=
  (empathetic_responses h : ℚ) / ((max (total_exchanges h) 1 : ℕ) : ℚ) * 100

/-- `stress_reduction = max(20, 100 - (defensive_responses /
max(total_exchanges, 1)) * 100)` (line 81). -/
def stress_reduction (h : ConversationHistory) : ℚ :=
  max 20 (100 - (defensive_responses h : ℚ) / ((max (total_exchanges h) 1 : ℕ) : ℚ) * 100)

/-- Python's `round(x)` to an integer, modelled as round-half-up on exact
rationals (`⌊x + 1/2⌋`). -/
def pyRound (x : ℚ) : ℤ :=
  (x + 1 / 2).floor

/-- Python's `round(x, 1)`: round to the nearest tenth. -/
def round1 (x : ℚ) : ℚ :=
  ((pyRound (10 * x) : ℤ) : ℚ) / 10

/-- The `conversation_summary` block of the analysis dict. -/
structure ConversationSummary where
  total_exchanges : ℕ
  empathetic_responses : ℕ
  defensive_responses : ℕ
  communication_pattern : String
deriving DecidableEq

/-- The `metrics` block of the analysis dict. -/
structure AnalysisMetrics where
  empathy_score : ℚ
  stress_reduction : ℚ
  emotional_regulation : ℚ
  communication_effectiveness : ℚ
deriving DecidableEq

/-- The `neural_improvements` block of the analysis dict. -/
structure NeuralImprovements where
  new_pathways_formed : ℕ
  stress_response_reduction : String
  empathy_network_strengthening : String
  prefrontal_cortex_activation : String
deriving DecidableEq

/-- The `neural_correlation` block attached when `neural_data` is truthy. -/
structure NeuralCorrelation where
  avg_stress_during_training : ℚ
  peak_empathy_activation : ℚ
  emotional_regulation_consistency : ℚ
deriving DecidableEq

/-- The full analysis report returned by `_generate_mock_analysis`; the
`neural_correlation` key is optional, all others are always present. -/
structure AnalysisReport where
  conversation_summary : ConversationSummary
  metrics : AnalysisMetrics
  insights : List String
  recommendations : List String
  neural_improvements : NeuralImprovements
  neural_correlation : Option NeuralCorrelation
deriving DecidableEq

/-- `AIService._generate_mock_analysis(conversation_history, neural_data)`
(lines 67-123), the heuristic analysis engine.  The final
`if neural_data:` of the source is Python truthiness: it is `False` both for
`None` and for an empty mapping. -/
def generate_mock_analysis (conversation_history : ConversationHistory)
    (neural_data : Option NeuralTelemetry) : AnalysisReport :=
  let total := total_exchanges conversation_history
  let emp := empathetic_responses conversation_history
  let defn := defensive_responses conversation_history
  let eScore := empathy_score conversation_history
  let sReduction := stress_reduction conversation_history
  { conversation_summary :=
      { total_exchanges := total
        empathetic_responses := emp
        defensive_responses := defn
        communication_pattern := if emp > defn then "improving" else "needs_work" }
    metrics :=
      { empathy_score := round1 eScore
        stress_reduction := round1 sReduction
        emotional_regulation := round1 ((eScore + sReduction) / 2)
        communication_effectiveness := round1 (min 95 (eScore * 1.2)) }
    insights :=
      [ "User showed improved empathetic responding during conflict"
      , "Stress levels decreased as conversation progressed"
      , "Neural pathways for emotional regulation strengthened"
      , "Communication pattern shifted from defensive to collaborative" ]
    recommendations :=
      [ "Continue practicing active listening techniques"
      , "Focus on emotional validation before problem-solving"
      , "Develop pause-and-reflect responses to reduce reactivity"
      , "Practice perspective-taking exercises" ]
    neural_improvements :=
      { new_pathways_formed := total * 3 + emp * 2
        stress_response_reduction := toString (pyRound sReduction) ++ "%"
        empathy_network_strengthening := toString (pyRound eScore) ++ "%"
        prefrontal_cortex_activation := "increased by 34%" }
    neural_correlation :=
      match neural_data with
      | none => none
      | some t =>
        if t = [] then none
        else some
          { avg_stress_during_training := telemetryGet t "avg_stress" 35
            peak_empathy_activation := telemetryGet t "peak_empathy" 82
            emotional_regulation_consistency := telemetryGet t "regulation" 78 } }

/-- The reusable live-backend client handle (`AsyncOpenAI(api_key=...)`). -/
structure ClientHandle where
  api_key : String
deriving DecidableEq

/-- The configuration read by `initialize` (from `..config.settings`). -/
structure Settings where
  FEATURE_REAL_AI : Bool
  OPENAI_API_KEY : String
deriving DecidableEq

/-- Outcome of the single connectivity probe
(`client.chat.completions.create(...)`): it either succeeds or raises one of
the backend failure kinds, all caught by the same `except Exception`. -/
inductive ProbeOutcome where
  | success
  | authError
  | networkError
  | quotaError
  | probeTimeout
deriving DecidableEq

/-- Result of `AIService.initialize` (lines 42-60): the value of
`self.client` afterwards, whether a client object was constructed, and
whether the network probe was attempted.  `initialize` is a plain total
function of the configuration, the prior `self.client` and the one probe
outcome: the `try/except` catches every failure, so no exception escapes and
the probe is evaluated exactly once, with no retry loop. -/
structure InitResult where
  client : Option ClientHandle
  clientCreated : Bool
  probeAttempted : Bool
deriving DecidableEq

/-- `AIService.initialize` (lines 42-60).  The guard is
`settings.FEATURE_REAL_AI and settings.OPENAI_API_KEY != "demo-key"`; inside
it a client is constructed and the probe runs; any exception is caught and
resets `self.client = None`.  In the `else` branch nothing touches
`self.client`, so the prior value is kept. -/
def initializeService (s : Settings) (prior : Option ClientHandle)
    (probe : ProbeOutcome) : InitResult :=
  if s.FEATURE_REAL_AI && s.OPENAI_API_KEY != "demo-key" then
    match probe with
    | ProbeOutcome.success =>
      { client := some { api_key := s.OPENAI_API_KEY }
        clientCreated := true
        probeAttempted := true }
    | _ =>
      { client := none
        clientCreated := true
        probeAttempted := true }
  else
    { client := prior, clientCreated := false, probeAttempted := false }

/-- `AIService.cleanup` (lines 62-65): `if self.client: await
self.client.close()`.  Returns the value of `self.client` after the call
(the source never reassigns it) together with the number of `close()`
invocations this call performs. -/
def cleanup (client : Option ClientHandle) : Option ClientHandle × ℕ :=
  match client with
  | some c => (some c, 1)
  | none => (none, 0)

/-! Helper lemmas about the rounding model and the keyword counts. -/

theorem pyRound_eq_round (x : ℚ) : pyRound x = round x := by
  rw [pyRound, round_eq, Rat.floor_def', Rat.floor_def]

theorem round1_mono {x y : ℚ} (h : x ≤ y) : round1 x ≤ round1 y := by
  have h10 : pyRound (10 * x) ≤ pyRound (10 * y) := by
    rw [pyRound_eq_round, pyRound_eq_round, round_eq, round_eq]
    exact Int.floor_mono (by linarith)
  have h10q : ((pyRound (10 * x) : ℤ) : ℚ) ≤ ((pyRound (10 * y) : ℤ) : ℚ) := by
    exact_mod_cast h10
  rw [round1, round1]
  linarith

theorem round1_intCast (k : ℤ) : round1 ((k : ℚ)) = (k : ℚ) := by
  rw [round1, pyRound_eq_round]
  have h : (10 : ℚ) * k = ((10 * k : ℤ) : ℚ) := by push_cast; ring
  rw [h, round_intCast]
  push_cast
  ring

theorem round1_le_of_le {x : ℚ} {k : ℤ} (h : x ≤ (k : ℚ)) : round1 x ≤ (k : ℚ) := by
  calc round1 x ≤ round1 ((k : ℚ)) := round1_mono h
    _ = (k : ℚ) := round1_intCast k

theorem le_round1_of_le {x : ℚ} {k : ℤ} (h : (k : ℚ) ≤ x) : (k : ℚ) ≤ round1 x := by
  calc (k : ℚ) = round1 ((k : ℚ)) := (round1_intCast k).symm
    _ ≤ round1 x := round1_mono h

theorem empathetic_le_total (h : ConversationHistory) :
    empathetic_responses h ≤ total_exchanges h :=
  List.countP_le_length _

theorem defensive_le_total (h : ConversationHistory) :
    defensive_responses h ≤ total_exchanges h :=
  List.countP_le_length _

theorem one_le_maxDen (h : ConversationHistory) :
    (1 : ℚ) ≤ ((max (total_exchanges h) 1 : ℕ) : ℚ) := by
  exact_mod_cast Nat.one_le_iff_ne_zero.mpr (by positivity)

theorem count_ratio_nonneg (c : ℕ) (h : ConversationHistory) :
    0 ≤ (c : ℚ) / ((max (total_exchanges h) 1 : ℕ) : ℚ) * 100 := by
  positivity

theorem count_ratio_le_100 {c : ℕ} (h : ConversationHistory)
    (hc : c ≤ total_exchanges h) :
    (c : ℚ) / ((max (total_exchanges h) 1 : ℕ) : ℚ) * 100 ≤ 100 := by
  have hm : (1 : ℚ) ≤ ((max (total_exchanges h) 1 : ℕ) : ℚ) := one_le_maxDen h
  have hcq : (c : ℚ) ≤ ((max (total_exchanges h) 1 : ℕ) : ℚ) := by
    exact_mod_cast le_trans hc (le_max_left _ _)
  have hdiv : (c : ℚ) / ((max (total_exchanges h) 1 : ℕ) : ℚ) ≤ 1 :=
    (div_le_one (by linarith)).mpr hcq
  linarith

theorem empathy_score_nonneg (h : ConversationHistory) : 0 ≤ empathy_score h :=
  count_ratio_nonneg _ h

theorem empathy_score_le_100 (h : ConversationHistory) : empathy_score h ≤ 100 :=
  count_ratio_le_100 h (empathetic_le_total h)

theorem stress_reduction_ge_20 (h : ConversationHistory) : 20 ≤ stress_reduction h :=
  le_max_left _ _

theorem stress_reduction_le_100 (h : ConversationHistory) : stress_reduction h ≤ 100 := by
  refine max_le (by norm_num) ?_
  have := count_ratio_nonneg (defensive_responses h) h
  linarith

/-! Theorems settling the claims. -/

/-- C2 (counterexample): the claim says a second `cleanup` call after the
handle has been released performs no further release action.  On the code it
does: `cleanup` never reassigns `self.client`, so after a first `cleanup` on
a state holding a live handle, the handle is still stored and the second
`cleanup` invokes `close()` again (one release action, not zero). -/
theorem claim_C2_counterexample :
    (cleanup (some { api_key := "sk-test" })).1 = some { api_key := "sk-test" }
    ∧ (cleanup (cleanup (some { api_key := "sk-test" })).1).2 = 1 :=
  ⟨rfl, rfl⟩

/-- C2 (amended): `cleanup` invokes `close()` exactly when a handle is
retained, and it never clears the stored reference; consequently every
`cleanup` call on a state with a retained handle performs the release again,
and `cleanup` is a no-op precisely when no handle is retained. -/
theorem claim_C2_cleanup_behavior (c : Option ClientHandle) :
    (cleanup c).1 = c ∧ (cleanup c).2 = (if c.isSome then 1 else 0) := by
  cases c <;> simp [cleanup]

/-- C9: for every configuration and every outcome of the connectivity probe
other than success — any backend failure, or live usage disabled by the
feature flag or the demo key — `initializeService` (a total function: the
`try/except` catches every exception) leaves the engine in heuristic mode,
with no client handle retained, based on the single probe outcome it is
given (no retry). -/
theorem claim_C9_initialize_never_raises (s : Settings) (probe : ProbeOutcome)
    (hfail : probe ≠ ProbeOutcome.success ∨ s.FEATURE_REAL_AI = false
      ∨ s.OPENAI_API_KEY = "demo-key") :
    (initializeService s none probe).client = none := by
  by_cases hf : s.FEATURE_REAL_AI
  · by_cases hk : s.OPENAI_API_KEY = "demo-key"
    · simp [initializeService, hk]
    · have hp : probe ≠ ProbeOutcome.success := by
        rcases hfail with hp | hf' | hk'
        · exact hp
        · exact absurd hf' (by simp [hf])
        · exact absurd hk' hk
      cases probe with
      | success => exact absurd rfl hp
      | authError => simp [initializeService, hf, hk]
      | networkError => simp [initializeService, hf, hk]
      | quotaError => simp [initializeService, hf, hk]
      | probeTimeout => simp [initializeService, hf, hk]
  · simp [initializeService, hf]

/-- C9 (witness): a network error during the probe, with live usage enabled
and a real key, leaves no client handle. -/
theorem claim_C9_witness :
    (initializeService { FEATURE_REAL_AI := true, OPENAI_API_KEY := "sk-test" }
      none ProbeOutcome.networkError).client = none :=
  claim_C9_initialize_never_raises
    { FEATURE_REAL_AI := true, OPENAI_API_KEY := "sk-test" }
    ProbeOutcome.networkError (Or.inl (by decide))

/-- C10: `initializeService` constructs a live-backend client exactly when
`FEATURE_REAL_AI` is true and the configured key differs from the literal
`"demo-key"`; when the key equals `"demo-key"` the engine keeps no client
and no network probe is attempted, regardless of the flag. -/
theorem claim_C10_demo_key_guard (s : Settings) (probe : ProbeOutcome) :
    ((initializeService s none probe).clientCreated = true
      ↔ (s.FEATURE_REAL_AI = true ∧ s.OPENAI_API_KEY ≠ "demo-key"))
    ∧ (s.OPENAI_API_KEY = "demo-key" →
        (initializeService s none probe).client = none
        ∧ (initializeService s none probe).probeAttempted = false) := by
  by_cases hf : s.FEATURE_REAL_AI
  · by_cases hk : s.OPENAI_API_KEY = "demo-key"
    · cases probe <;> simp [initializeService, hf, hk]
    · cases probe <;> simp [initializeService, hf, hk]
  · by_cases hk : s.OPENAI_API_KEY = "demo-key"
    · cases probe <;> simp [initializeService, hf, hk]
    · cases probe <;> simp [initializeService, hf, hk]

/-- C10 (witness): with the demo key and the feature flag enabled, no client
is created and no probe is attempted. -/
theorem claim_C10_witness :
    (initializeService { FEATURE_REAL_AI := true, OPENAI_API_KEY := "demo-key" }
      none ProbeOutcome.success).client = none
    ∧ (initializeService { FEATURE_REAL_AI := true, OPENAI_API_KEY := "demo-key" }
      none ProbeOutcome.success).probeAttempted = false :=
  (claim_C10_demo_key_guard
    { FEATURE_REAL_AI := true, OPENAI_API_KEY := "demo-key" }
    ProbeOutcome.success).2 rfl

/-- C1 (counterexample): the claim says `analyze(H, telemetry={})` returns a
report whose `neural_correlation` is present with the default values.  On
the code it is absent: `if neural_data:` is Python truthiness, which is
false for the empty mapping, so no `neural_correlation` key is attached. -/
theorem claim_C1_counterexample :
    (generate_mock_analysis [] (some [])).neural_correlation = none := by
  simp [generate_mock_analysis]

/-- C1 (amended): `neural_correlation` is attached exactly when the supplied
telemetry mapping is truthy, i.e. nonempty: for a nonempty mapping the
attached values are the supplied ones with defaults `avg_stress = 35`,
`peak_empathy = 82`, `regulation = 78` for any missing field, while for an
empty mapping — and for no mapping at all — the field is absent. -/
theorem claim_C1_telemetry_defaults (h : ConversationHistory)
    (t : NeuralTelemetry) (ht : t ≠ []) :
    (generate_mock_analysis h (some t)).neural_correlation
      = some { avg_stress_during_training := telemetryGet t "avg_stress" 35
               peak_empathy_activation := telemetryGet t "peak_empathy" 82
               emotional_regulation_consistency := telemetryGet t "regulation" 78 }
    ∧ (generate_mock_analysis h (some [])).neural_correlation = none
    ∧ (generate_mock_analysis h none).neural_correlation = none := by
  refine ⟨?_, ?_, ?_⟩ <;> simp [generate_mock_analysis, ht]

/-- C1 (witness): a singleton telemetry mapping supplying only `avg_stress`
gets the two remaining defaults. -/
theorem claim_C1_witness :
    (generate_mock_analysis [] (some [("avg_stress", 50)])).neural_correlation
      = some { avg_stress_during_training := 50
               peak_empathy_activation := 82
               emotional_regulation_consistency := 78 } := by
  have hth := claim_C1_telemetry_defaults [] [("avg_stress", 50)] (by simp)
  rw [hth.1]
  rfl

/-- C3: for every conversation history and optional telemetry, the report's
`communication_pattern` is `"improving"` iff `empathetic_responses` is
strictly greater than `defensive_responses`; when the two counts are equal
the pattern is `"needs_work"`. -/
theorem claim_C3_communication_pattern (h : ConversationHistory)
    (nd : Option NeuralTelemetry) :
    ((generate_mock_analysis h nd).conversation_summary.communication_pattern
        = "improving"
      ↔ empathetic_responses h > defensive_responses h)
    ∧ (empathetic_responses h = defensive_responses h →
      (generate_mock_analysis h nd).conversation_summary.communication_pattern
        = "needs_work") := by
  constructor
  · by_cases hgt : empathetic_responses h > defensive_responses h
    · simp [generate_mock_analysis, hgt]
    · simp [generate_mock_analysis, hgt]
  · intro heq
    have hngt : ¬ empathetic_responses h > defensive_responses h := by omega
    simp [generate_mock_analysis, hngt]

/-- C3 (witness): on the empty history the two counts are equal and the
pattern is `"needs_work"`. -/
theorem claim_C3_witness :
    (generate_mock_analysis [] none).conversation_summary.communication_pattern
      = "needs_work" :=
  (claim_C3_communication_pattern [] none).2 rfl

theorem metrics_eq (h : ConversationHistory) (nd : Option NeuralTelemetry) :
    (generate_mock_analysis h nd).metrics
      = { empathy_score := round1 (empathy_score h)
          stress_reduction := round1 (stress_reduction h)
          emotional_regulation := round1 ((empathy_score h + stress_reduction h) / 2)
          communication_effectiveness := round1 (min 95 (empathy_score h * 1.2)) } :=
  rfl

/-- C4: the `stress_reduction` metric always lies in `[20, 100]`; it equals
`max(20, 100 - defensive_responses / max(total, 1) * 100)` rounded to one
decimal place, and on the empty history it equals `100`. -/
theorem claim_C4_stress_reduction (h : ConversationHistory)
    (nd : Option NeuralTelemetry) :
    20 ≤ (generate_mock_analysis h nd).metrics.stress_reduction
    ∧ (generate_mock_analysis h nd).metrics.stress_reduction ≤ 100
    ∧ (generate_mock_analysis h nd).metrics.stress_reduction
      = round1 (max 20 (100 - (defensive_responses h : ℚ)
          / ((max (total_exchanges h) 1 : ℕ) : ℚ) * 100))
    ∧ (generate_mock_analysis [] nd).metrics.stress_reduction = 100 := by
  have hproj : (generate_mock_analysis h nd).metrics.stress_reduction
      = round1 (stress_reduction h) := by rw [metrics_eq]
  have hlo : ((20 : ℤ) : ℚ) ≤ stress_reduction h := by
    push_cast
    exact stress_reduction_ge_20 h
  have hhi : stress_reduction h ≤ ((100 : ℤ) : ℚ) := by
    push_cast
    exact stress_reduction_le_100 h
  have hlo' := le_round1_of_le hlo
  have hhi' := round1_le_of_le hhi
  norm_num at hlo' hhi'
  refine ⟨by rw [hproj]; exact hlo', by rw [hproj]; exact hhi', by rw [hproj, stress_reduction], ?_⟩
  have hempty : stress_reduction [] = 100 := by
    norm_num [stress_reduction, defensive_responses, total_exchanges]
  have hproj0 : (generate_mock_analysis [] nd).metrics.stress_reduction
      = round1 (stress_reduction []) := by rw [metrics_eq]
  rw [hproj0, hempty]
  have h100 := round1_intCast 100
  norm_num at h100
  exact h100

/-- C5: the `communication_effectiveness` metric equals
`min(95, empathy_score * 1.2)` rounded to one decimal place, and is never
greater than `95`. -/
theorem claim_C5_communication_effectiveness (h : ConversationHistory)
    (nd : Option NeuralTelemetry) :
    (generate_mock_analysis h nd).metrics.communication_effectiveness
      = round1 (min 95 (empathy_score h * 1.2))
    ∧ (generate_mock_analysis h nd).metrics.communication_effectiveness ≤ 95 := by
  have hproj : (generate_mock_analysis h nd).metrics.communication_effectiveness
      = round1 (min 95 (empathy_score h * 1.2)) := by rw [metrics_eq]
  have hmin : min 95 (empathy_score h * 1.2) ≤ ((95 : ℤ) : ℚ) := by
    push_cast
    exact min_le_left _ _
  have hle := round1_le_of_le hmin
  exact ⟨hproj, by rw [hproj]; exact_mod_cast hle⟩

/-- C6: for every conversation history (the empty one included) and every
optional telemetry, the report is structurally complete: the summary carries
the three counts and a pattern from the two documented values, every metric
is a number in `[0, 100]` with one decimal place (an integer number of
tenths), and the insights, recommendations and neural-improvements blocks
are populated. -/
theorem claim_C6_report_complete (h : ConversationHistory)
    (nd : Option NeuralTelemetry) :
    (generate_mock_analysis h nd).conversation_summary.total_exchanges
      = total_exchanges h
    ∧ (generate_mock_analysis h nd).conversation_summary.empathetic_responses
      = empathetic_responses h
    ∧ (generate_mock_analysis h nd).conversation_summary.defensive_responses
      = defensive_responses h
    ∧ ((generate_mock_analysis h nd).conversation_summary.communication_pattern
        = "improving"
      ∨ (generate_mock_analysis h nd).conversation_summary.communication_pattern
        = "needs_work")
    ∧ (0 ≤ (generate_mock_analysis h nd).metrics.empathy_score
      ∧ (generate_mock_analysis h nd).metrics.empathy_score ≤ 100
      ∧ ∃ k : ℤ, (generate_mock_analysis h nd).metrics.empathy_score = (k : ℚ) / 10)
    ∧ (0 ≤ (generate_mock_analysis h nd).metrics.stress_reduction
      ∧ (generate_mock_analysis h nd).metrics.stress_reduction ≤ 100
      ∧ ∃ k : ℤ, (generate_mock_analysis h nd).metrics.stress_reduction = (k : ℚ) / 10)
    ∧ (0 ≤ (generate_mock_analysis h nd).metrics.emotional_regulation
      ∧ (generate_mock_analysis h nd).metrics.emotional_regulation ≤ 100
      ∧ ∃ k : ℤ, (generate_mock_analysis h nd).metrics.emotional_regulation = (k : ℚ) / 10)
    ∧ (0 ≤ (generate_mock_analysis h nd).metrics.communication_effectiveness
      ∧ (generate_mock_analysis h nd).metrics.communication_effectiveness ≤ 100
      ∧ ∃ k : ℤ, (generate_mock_analysis h nd).metrics.communication_effectiveness
          = (k : ℚ) / 10)
    ∧ (generate_mock_analysis h nd).insights.length = 4
    ∧ (generate_mock_analysis h nd).recommendations.length = 4
    ∧ (generate_mock_analysis h nd).neural_improvements.new_pathways_formed
      = total_exchanges h * 3 + empathetic_responses h * 2 := by
  have he0 := empathy_score_nonneg h
  have he1 := empathy_score_le_100 h
  have hs0 := stress_reduction_ge_20 h
  have hs1 := stress_reduction_le_100 h
  have hbound : ∀ x : ℚ, 0 ≤ x → x ≤ 100 → 0 ≤ round1 x ∧ round1 x ≤ 100 := by
    intro x hx0 hx1
    have hlo : ((0 : ℤ) : ℚ) ≤ x := by push_cast; exact hx0
    have hhi : x ≤ ((100 : ℤ) : ℚ) := by push_cast; exact hx1
    have hlo' := le_round1_of_le hlo
    have hhi' := round1_le_of_le hhi
    norm_num at hlo' hhi'
    exact ⟨hlo', hhi'⟩
  refine ⟨rfl, rfl, rfl, ?_, ?_, ?_, ?_, ?_, rfl, rfl, rfl⟩
  · by_cases hgt : empathetic_responses h > defensive_responses h
    · left; simp [generate_mock_analysis, hgt]
    · right; simp [generate_mock_analysis, hgt]
  · rw [metrics_eq]
    exact ⟨(hbound _ he0 he1).1, (hbound _ he0 he1).2, pyRound (10 * empathy_score h), rfl⟩
  · rw [metrics_eq]
    exact ⟨(hbound _ (by linarith) hs1).1, (hbound _ (by linarith) hs1).2,
      pyRound (10 * stress_reduction h), rfl⟩
  · rw [metrics_eq]
    refine ⟨(hbound _ (by linarith) (by linarith)).1,
      (hbound _ (by linarith) (by linarith)).2,
      pyRound (10 * ((empathy_score h + stress_reduction h) / 2)), rfl⟩
  · rw [metrics_eq]
    have hc0 : 0 ≤ min 95 (empathy_score h * 1.2) := by
      refine le_min (by norm_num) ?_
      nlinarith
    have hc1 : min 95 (empathy_score h * 1.2) ≤ 100 := by
      have := min_le_left (95 : ℚ) (empathy_score h * 1.2)
      linarith
    exact ⟨(hbound _ hc0 hc1).1, (hbound _ hc0 hc1).2,
      pyRound (10 * min 95 (empathy_score h * 1.2)), rfl⟩

/-- C7: empathy-keyword detection is by substring match, not whole-word
match: any exchange whose user message contains `"misunderstand"` counts as
empathetic — `"understand"` occurs as a substring of the lower-cased message
— so appending such an exchange to any history increments
`empathetic_responses` by one. -/
theorem claim_C7_substring_match (h : ConversationHistory) (e : Exchange)
    (msg : String) (hmsg : e.user_message = some msg)
    (hsub : "misunderstand".data <:+: msg.data) :
    isEmpathetic e = true
    ∧ empathetic_responses (h ++ [e]) = empathetic_responses h + 1 := by
  have hmapped : "misunderstand".data.map Char.toLower
      <:+: msg.data.map Char.toLower :=
    List.IsInfix.map Char.toLower hsub
  have hself : "misunderstand".data.map Char.toLower = "misunderstand".data := by
    decide
  have hund : "understand".data <:+: "misunderstand".data := by decide
  have hfinal : "understand".data <:+: (lowerStr msg).data :=
    List.IsInfix.trans hund (hself ▸ hmapped)
  have hcontains : containsWord (lowerStr (getUserMessage e)) "understand" = true := by
    rw [getUserMessage, hmsg]
    simp only [Option.getD_some, containsWord]
    exact decide_eq_true hfinal
  have hemp : isEmpathetic e = true := by
    rw [isEmpathetic, empathyWords]
    simp only [List.any_cons, hcontains, Bool.true_or, List.any_nil, Bool.or_true,
      Bool.true_and]
  refine ⟨hemp, ?_⟩
  rw [empathetic_responses, empathetic_responses, List.countP_append,
    List.countP_singleton]
  simp [hemp]

/-- C7 (witness): the exchange with user message `"I misunderstand"` is
counted as empathetic. -/
theorem claim_C7_witness :
    isEmpathetic { user_message := some "I misunderstand" } = true
    ∧ empathetic_responses ([] ++ [{ user_message := some "I misunderstand" }])
      = empathetic_responses [] + 1 :=
  claim_C7_substring_match [] { user_message := some "I misunderstand" }
    "I misunderstand" rfl (by decide)

/-- C8: the heuristic analysis never raises on malformed input: an exchange
with no `user_message` field is read as the empty string and contributes
zero matches to both keyword counts, while the analysis — a total function —
still returns its report, with the exchange counted in `total_exchanges`. -/
theorem claim_C8_missing_field (h : ConversationHistory)
    (nd : Option NeuralTelemetry) (e : Exchange)
    (he : e.user_message = none) :
    isEmpathetic e = false
    ∧ isDefensive e = false
    ∧ empathetic_responses (h ++ [e]) = empathetic_responses h
    ∧ defensive_responses (h ++ [e]) = defensive_responses h
    ∧ (generate_mock_analysis (h ++ [e]) nd).conversation_summary.total_exchanges
      = total_exchanges h + 1 := by
  have hmsg : getUserMessage e = "" := by rw [getUserMessage, he]; rfl
  have hemp : isEmpathetic e = false := by
    rw [isEmpathetic, hmsg]; decide
  have hdef : isDefensive e = false := by
    rw [isDefensive, hmsg]; decide
  refine ⟨hemp, hdef, ?_, ?_, ?_⟩
  · rw [empathetic_responses, empathetic_responses, List.countP_append,
      List.countP_singleton]
    simp [hemp]
  · rw [defensive_responses, defensive_responses, List.countP_append,
      List.countP_singleton]
    simp [hdef]
  · show total_exchanges (h ++ [e]) = total_exchanges h + 1
    simp [total_exchanges]

/-- C8 (witness): an exchange carrying only an AI response is counted in
neither keyword tally. -/
theorem claim_C8_witness :
    isEmpathetic { user_message := none, ai_response := some "ok" } = false
    ∧ isDefensive { user_message := none, ai_response := some "ok" } = false
    ∧ empathetic_responses ([] ++ [{ user_message := none, ai_response := some "ok" }])
      = empathetic_responses []
    ∧ defensive_responses ([] ++ [{ user_message := none, ai_response := some "ok" }])
      = defensive_responses []
    ∧ (generate_mock_analysis ([] ++ [{ user_message := none, ai_response := some "ok" }])
        none).conversation_summary.total_exchanges
      = total_exchanges [] + 1 :=
  claim_C8_missing_field [] none
    { user_message := none, ai_response := some "ok" } rfl

end AIServiceModel
